import Mathlib

set_option linter.unusedVariables false

/-! Verification development for the machine-monitor repository.

The development shallowly embeds three parts of the source:

* the journald streaming engine of `internal/journald/remote.go`
  (`StreamFromRemote`, `resetCursorFile`, `stream`),
* the context-aware SSH dial of `internal/ssh/context.go` (`DialContext`),
* the Machine reconciler of `cmd/main.go` (`MachineReconciler.Reconcile`).

Each Go function becomes a Lean function over an explicit environment
describing the outside world's response to every operation the code
performs (session creation, `os.Stat`, `os.OpenFile`, running and waiting
for remote commands, context cancellation), together with explicit state:
whether the remote cursor file exists and the byte content of the local
journal file.  Every execution additionally produces a trace of observable
events, used to state ordering and resource-release properties. -/

/-- Errors mirror the Go error values built with `fmt.Errorf` in the source;
each wrapping constructor corresponds to one `%w` format in the code, and
`runCommandFailed` additionally records the captured stderr that the
corresponding format string embeds. `notFound` marks the class of errors
recognised by `apierrors.IsNotFound`. -/
inductive GoError where
  | base (msg : String)
  | notFound (msg : String)
  | sessionCreateFailed (cause : GoError)
  | runCommandFailed (command : String) (cause : GoError) (stderr : String)
  | openLocalFileFailed (cause : GoError)
  | unexpectedWaitError (cause : GoError)
  | resetCursorFailed (cause : GoError)
  | streamFailed (cause : GoError)
  | getMachineFailed (namespacedName : String) (cause : GoError)
  | sshClientFailed (cause : GoError)
  | importJournalFailed (cause : GoError)
deriving DecidableEq, Repr

/-- Stderr strings recorded anywhere inside an error value.  The only
constructor of `GoError` that embeds a captured stderr is
`runCommandFailed`, matching the only two `fmt.Errorf` calls in
`remote.go` whose format string contains `stderr=%q`. -/
def GoError.capturedStderrs : GoError → List String
  | .base _ => []
  | .notFound _ => []
  | .sessionCreateFailed c => c.capturedStderrs
  | .runCommandFailed _ c stderr => stderr :: c.capturedStderrs
  | .openLocalFileFailed c => c.capturedStderrs
  | .unexpectedWaitError c => c.capturedStderrs
  | .resetCursorFailed c => c.capturedStderrs
  | .streamFailed c => c.capturedStderrs
  | .getMachineFailed _ c => c.capturedStderrs
  | .sshClientFailed c => c.capturedStderrs
  | .importJournalFailed c => c.capturedStderrs

/-- Observable events of one execution of the journald streaming engine.
`streamStarted` records, at the instant `session.Start` succeeds for the
log-follow command, the command string and whether the remote cursor file
exists at that moment. -/
inductive Event where
  | resetSessionCreated
  | rmIssued (command : String)
  | rmSucceeded
  | resetSessionClosed
  | sessionCreated
  | fileOpened
  | streamStarted (command : String) (cursorExists : Bool)
  | cancelObserved
  | interruptRequested
  | interruptFailed
  | sessionForceClosed
  | commandTerminated
  | sessionClosed
  | fileClosed
deriving DecidableEq, Repr

/-- State of the remote host's filesystem that the engine observes or
changes: whether the journald cursor file exists. -/
structure RemoteState where
  cursorExists : Bool
deriving DecidableEq, Repr

/-- Environment of one execution: the outside world's response to each
operation the engine performs, fixed in advance.  `none` for an error
field means the operation succeeds.  `rmFault` is a failure of the remote
`rm --force` command for a reason other than the file being absent (the
`--force` flag makes absence a success, per the comment in the source).
`cancelDuringWait` selects the `ctx.Done()` arm of the `select` while
waiting for the remote command; `ctxDoneAtFinalCheck` is the value of
`ctx.Err() != nil` at the final check of `stream`. -/
structure Env where
  statFault : Option GoError := none
  resetNewSessionErr : Option GoError := none
  rmFault : Option GoError := none
  rmStderr : String := ""
  resetCloseErr : Option GoError := none
  streamNewSessionErr : Option GoError := none
  openFileErr : Option GoError := none
  startErr : Option GoError := none
  startStderr : String := ""
  streamedBytes : List Nat := []
  streamStderr : String := ""
  waitErr : Option GoError := none
  cancelDuringWait : Bool := false
  signalErr : Option GoError := none
  streamCloseErr : Option GoError := none
  fileCloseErr : Option GoError := none
  ctxDoneAtFinalCheck : Bool := false
deriving DecidableEq, Repr

/-- Result of `os.Stat` on the local journal file. -/
inductive StatOutcome where
  | ok
  | notExist
  | otherError (e : GoError)
deriving DecidableEq, Repr

/-- Model of `os.Stat(localJournalFilePath)`: when the environment injects
no fault, the result truthfully reports whether the file exists; a fault
(for example permission denied) yields an error that is not a
not-exist error. -/
def osStat (env : Env) (localJournal : Option (List Nat)) : StatOutcome :=
  match env.statFault with
  | some e => .otherError e
  | none =>
    match localJournal with
    | none => .notExist
    | some _ => .ok

/-- Model of `os.IsNotExist` applied to the result of `osStat`. -/
def osIsNotExist : StatOutcome → Bool
  | .notExist => true
  | _ => false

/-- The remote log-follow command string built by
`streamJournalAsRootCommand` in the source. -/
def streamJournalAsRootCommand (cursorFilePath : String) : String :=
  "sudo journalctl --follow --no-tail --cursor-file=" ++ cursorFilePath

/-- The remote cursor-file delete command built by `removeCursorFileCommand`
in the source; `--force` makes it succeed even if the file does not
exist. -/
def removeCursorFileCommand (cursorFilePath : String) : String :=
  "rm --force " ++ cursorFilePath

/-- Model of `resetCursorFile`: create an SSH session, run
`rm --force cursorFilePath` on the remote host, close the session.  A run
failure is wrapped with the command string and the captured stderr; a
close failure is only logged.  Returns the result, the remote state after
the call, and the event trace. -/
def resetCursorFile (env : Env) (remote : RemoteState) (cursorFilePath : String) :
    Except GoError Unit × RemoteState × List Event :=
  match env.resetNewSessionErr with
  | some e => (.error (.sessionCreateFailed e), remote, [])
  | none =>
    let command := removeCursorFileCommand cursorFilePath
    match env.rmFault with
    | some e =>
      (.error (.runCommandFailed command e env.rmStderr), remote,
        [.resetSessionCreated, .rmIssued command])
    | none =>
      (.ok (), { cursorExists := false },
        [.resetSessionCreated, .rmIssued command, .rmSucceeded, .resetSessionClosed])

deriving instance DecidableEq for Except

/-- Outcome of one execution of `stream` or `StreamFromRemote`: the
returned value, the local journal file after the call (`none` when it does
not exist), the remote state after the call, and the event trace. -/
structure StreamOut where
  result : Except GoError Unit
  localJournal : Option (List Nat)
  remote : RemoteState
  events : List Event
deriving DecidableEq, Repr

/-- Model of `stream`: create an SSH session, open the local journal file
with `O_CREATE|O_WRONLY|O_APPEND` (existing content kept, file created
empty when absent), start the remote log-follow command, wait for it to
finish racing against context cancellation, then close the session and the
file.  On cancellation the engine requests an interrupt and keeps waiting
for actual termination; if the interrupt request itself fails it force
closes the session and still waits.  The final result is an error exactly
when the context was not done at the final check and the wait returned an
error.  Mirrors the source exactly, including its two early-return paths
that do not close the session. -/
def stream (env : Env) (remote : RemoteState) (localJournal : Option (List Nat))
    (cursorFilePath localJournalFilePath : String) : StreamOut :=
  match env.streamNewSessionErr with
  | some e =>
    { result := .error (.sessionCreateFailed e), localJournal := localJournal,
      remote := remote, events := [] }
  | none =>
    match env.openFileErr with
    | some e =>
      { result := .error (.openLocalFileFailed e), localJournal := localJournal,
        remote := remote, events := [.sessionCreated] }
    | none =>
      let opened : List Nat := localJournal.getD []
      let command := streamJournalAsRootCommand cursorFilePath
      match env.startErr with
      | some e =>
        { result := .error (.runCommandFailed command e env.startStderr),
          localJournal := some opened, remote := remote,
          events := [.sessionCreated, .fileOpened, .fileClosed] }
      | none =>
        let waitEvents : List Event :=
          if env.cancelDuringWait then
            [.cancelObserved] ++
              (match env.signalErr with
                | some _ => [.interruptRequested, .interruptFailed, .sessionForceClosed]
                | none => [.interruptRequested]) ++
              [.commandTerminated]
          else
            [.commandTerminated]
        let result : Except GoError Unit :=
          if env.ctxDoneAtFinalCheck then
            .ok ()
          else
            match env.waitErr with
            | some e => .error (.unexpectedWaitError e)
            | none => .ok ()
        { result := result,
          localJournal := some (opened ++ env.streamedBytes),
          remote := { cursorExists := true },
          events :=
            [.sessionCreated, .fileOpened, .streamStarted command remote.cursorExists] ++
              waitEvents ++ [.sessionClosed, .fileClosed] }

/-- Model of `StreamFromRemote`: stat the local journal file; when the stat
reports not-exist, reset the remote cursor file and abort on reset
failure; then stream, wrapping a stream error.  Mirrors the source: the
reset branch is taken exactly when `os.IsNotExist` holds of the stat
result, so any other stat error skips the reset silently. -/
def StreamFromRemote (env : Env) (remote : RemoteState)
    (localJournal : Option (List Nat))
    (cursorFilePath localJournalFilePath : String) : StreamOut :=
  if osIsNotExist (osStat env localJournal) then
    match resetCursorFile env remote cursorFilePath with
    | (.error e, remote1, ev1) =>
      { result := .error (.resetCursorFailed e), localJournal := localJournal,
        remote := remote1, events := ev1 }
    | (.ok _, remote1, ev1) =>
      let s := stream env remote1 localJournal cursorFilePath localJournalFilePath
      { result :=
          match s.result with
          | .error e => .error (.streamFailed e)
          | .ok _ => .ok (),
        localJournal := s.localJournal, remote := s.remote,
        events := ev1 ++ s.events }
  else
    let s := stream env remote localJournal cursorFilePath localJournalFilePath
    { result :=
        match s.result with
        | .error e => .error (.streamFailed e)
        | .ok _ => .ok (),
      localJournal := s.localJournal, remote := s.remote, events := s.events }

/-- Cursor-existence snapshot carried by the first `streamStarted` event of
a trace, `none` when streaming never began. -/
def streamBeginSnapshot (events : List Event) : Option Bool :=
  events.findSome? fun e =>
    match e with
    | .streamStarted _ b => some b
    | _ => none

/-- Which arm of the outer `select` in `DialContext` fires first:
`handshakeDelivered` when the goroutine's result is received from the
channel, `ctxDone` when the context is done first. -/
inductive DialWinner where
  | handshakeDelivered
  | ctxDone
deriving DecidableEq, Repr

/-- Environment of one `DialContext` call: the result of the underlying
`net.Dialer.DialContext`, the result of the SSH handshake
(`ssh.NewClientConn`, `none` meaning a client was built), which `select`
arm fires, the cancellation cause reported by `context.Cause` when the
context is done, and whether the context gets cancelled only after the
call has returned. -/
structure DialEnv where
  dialErr : Option GoError := none
  handshakeErr : Option GoError := none
  winner : DialWinner := .handshakeDelivered
  ctxCause : GoError := .base "context canceled"
  cancelledAfterReturn : Bool := false
deriving DecidableEq, Repr

/-- Outcome of one `DialContext` call: whether a client was returned to the
caller, the returned error, and whether the goroutine closes the client it
built because the context was done before the result was received. -/
structure DialOutcome where
  clientReturned : Bool
  error : Option GoError
  clientClosedByGoroutine : Bool
deriving DecidableEq, Repr

/-- Model of `DialContext` in `internal/ssh/context.go`: dial the TCP
connection (failing on dial error), run the SSH handshake in a goroutine,
and race delivery of its result against `ctx.Done()`.  When the context
wins, the call returns `context.Cause(ctx)` and the goroutine, unable to
deliver on the unbuffered channel, closes the client if the handshake
built one. -/
def DialContext (env : DialEnv) : DialOutcome :=
  match env.dialErr with
  | some e => { clientReturned := false, error := some e, clientClosedByGoroutine := false }
  | none =>
    match env.winner with
    | .handshakeDelivered =>
      match env.handshakeErr with
      | some e =>
        { clientReturned := false, error := some e, clientClosedByGoroutine := false }
      | none =>
        { clientReturned := true, error := none, clientClosedByGoroutine := false }
    | .ctxDone =>
      { clientReturned := false, error := some env.ctxCause,
        clientClosedByGoroutine := env.handshakeErr.isNone }

/-- Address of a Machine as reported in its status; `addrType` mirrors
`clusterv1.MachineAddressType`. -/
structure MachineAddress where
  addrType : String
  address : String
deriving DecidableEq, Repr

/-- The `clusterv1.MachineInternalIP` address-type constant. -/
def MachineInternalIP : String := "InternalIP"

/-- The fields of a Machine resource that `Reconcile` reads. -/
structure Machine where
  name : String
  nspace : String
  addresses : List MachineAddress
deriving DecidableEq, Repr

/-- Model of the loop in `Reconcile` that picks the machine IP: the address
of the first status address whose type is `MachineInternalIP`, or the
empty string when none matches. -/
def firstMachineInternalIP : List MachineAddress → String
  | [] => ""
  | a :: rest =>
    if a.addrType = MachineInternalIP then a.address
    else firstMachineInternalIP rest

/-- Observable events of one `Reconcile` call. `notFoundReturn` marks the
benign return in the branch guarded by `apierrors.IsNotFound(err)`. -/
inductive REvent where
  | notFoundReturn
  | sshClientCreated
  | streamFromRemoteCalled
  | sshClientClosed
deriving DecidableEq, Repr

/-- Model of `apierrors.IsNotFound`: true exactly on not-found errors, and
in particular false on a nil error. -/
def isNotFound : Option GoError → Bool
  | some (.notFound _) => true
  | _ => false

/-- The `ctrl.Result` value returned by `Reconcile`; the source only ever
returns the zero value `ctrl.Result{}`. -/
structure CtrlResult where
  requeue : Bool := false
  requeueAfter : Nat := 0
deriving DecidableEq, Repr

/-- Configuration fields of `MachineReconciler` used by `Reconcile`. -/
structure ReconcilerConfig where
  localJournalDirectory : String
  remoteJournaldCursorFilePath : String
deriving DecidableEq, Repr

/-- Environment of one `Reconcile` call: the cancellation cause at entry,
the result of the Machine get (`getErr`, with `machine` the object it
fills on success), the result of creating the SSH client, and the
environment driving the nested `StreamFromRemote` call. -/
structure ReconcileEnv where
  ctxCause : Option GoError := none
  getErr : Option GoError := none
  machine : Machine
  sshClientErr : Option GoError := none
  sshCloseErr : Option GoError := none
  journaldEnv : Env := {}
deriving DecidableEq, Repr

/-- Outcome of one `Reconcile` call: the `ctrl.Result`, the returned error,
the event trace, and the local and remote state after the call. -/
structure ReconcileOut where
  result : CtrlResult
  error : Option GoError
  events : List REvent
  localJournal : Option (List Nat)
  remote : RemoteState
deriving DecidableEq, Repr

/-- Model of `MachineReconciler.Reconcile`: return the cancellation cause
when the context is already cancelled at entry; get the Machine, returning
a wrapped error whenever the get errs; then the literally translated (and
therefore dead) not-found check; pick the first internal IP from the
status addresses, returning success with the zero result when there is
none; create the SSH client; derive the local journal file path from the
namespace and name; and delegate to `StreamFromRemote`, wrapping its
error.  The deferred SSH-client close runs on every path after client
creation. -/
def Reconcile (cfg : ReconcilerConfig) (env : ReconcileEnv)
    (remote : RemoteState) (localJournal : Option (List Nat))
    (reqNamespace reqName : String) : ReconcileOut :=
  match env.ctxCause with
  | some cause =>
    { result := {}, error := some cause, events := [],
      localJournal := localJournal, remote := remote }
  | none =>
    let err := env.getErr
    match err with
    | some e =>
      { result := {}, error := some (.getMachineFailed (reqNamespace ++ "/" ++ reqName) e),
        events := [], localJournal := localJournal, remote := remote }
    | none =>
      if isNotFound none then
        { result := {}, error := none, events := [.notFoundReturn],
          localJournal := localJournal, remote := remote }
      else
        let machine := env.machine
        let machineIP := firstMachineInternalIP machine.addresses
        if machineIP = "" then
          { result := {}, error := none, events := [],
            localJournal := localJournal, remote := remote }
        else
          match env.sshClientErr with
          | some e =>
            { result := {}, error := some (.sshClientFailed e), events := [],
              localJournal := localJournal, remote := remote }
          | none =>
            let localJournalFilePath :=
              cfg.localJournalDirectory ++ "/" ++ machine.nspace ++ "-" ++
                machine.name ++ ".log"
            let s := StreamFromRemote env.journaldEnv remote localJournal
              cfg.remoteJournaldCursorFilePath localJournalFilePath
            match s.result with
            | .error e =>
              { result := {}, error := some (.importJournalFailed e),
                events := [.sshClientCreated, .streamFromRemoteCalled, .sshClientClosed],
                localJournal := s.localJournal, remote := s.remote }
            | .ok _ =>
              { result := {}, error := none,
                events := [.sshClientCreated, .streamFromRemoteCalled, .sshClientClosed],
                localJournal := s.localJournal, remote := s.remote }

/-- C1: for every call to `StreamFromRemote` in which the local journal
file does not exist at entry (and `os.Stat` reports this truthfully), if
the remote log-follow command is started then the remote cursor-file
force-delete command was issued and succeeded earlier in the trace, and
the cursor file does not exist at the moment streaming begins. -/
theorem c1_cursor_reset_before_streaming
    (env : Env) (remote : RemoteState) (cfp lfp : String)
    (hStat : env.statFault = none)
    (hStart : ∃ c b,
      Event.streamStarted c b ∈ (StreamFromRemote env remote none cfp lfp).events) :
    env.rmFault = none ∧
    streamBeginSnapshot (StreamFromRemote env remote none cfp lfp).events = some false ∧
    ∃ pre post,
      (StreamFromRemote env remote none cfp lfp).events =
        pre ++ Event.streamStarted (streamJournalAsRootCommand cfp) false :: post ∧
      Event.rmIssued (removeCursorFileCommand cfp) ∈ pre ∧
      Event.rmSucceeded ∈ pre := by
  obtain ⟨c, b, hmem⟩ := hStart
  cases h1 : env.resetNewSessionErr <;>
    cases h2 : env.rmFault <;>
      cases h3 : env.streamNewSessionErr <;>
        cases h4 : env.openFileErr <;>
          cases h5 : env.startErr <;>
            simp_all [StreamFromRemote, stream, resetCursorFile, osStat, osIsNotExist,
              streamBeginSnapshot]
  exact ⟨[.resetSessionCreated, .rmIssued (removeCursorFileCommand cfp), .rmSucceeded,
    .resetSessionClosed, .sessionCreated, .fileOpened], ⟨_, rfl⟩, by simp, by simp⟩

/-- Witness for C1 at a concrete environment in which every operation
succeeds and the remote cursor file initially exists. -/
theorem c1_witness :
    (({} : Env).statFault = none) ∧
    (∃ c b, Event.streamStarted c b ∈
      (StreamFromRemote {} ⟨true⟩ none "/c" "/l").events) ∧
    (({} : Env).rmFault = none ∧
      streamBeginSnapshot (StreamFromRemote {} ⟨true⟩ none "/c" "/l").events =
        some false ∧
      ∃ pre post,
        (StreamFromRemote {} ⟨true⟩ none "/c" "/l").events =
          pre ++ Event.streamStarted (streamJournalAsRootCommand "/c") false :: post ∧
        Event.rmIssued (removeCursorFileCommand "/c") ∈ pre ∧
        Event.rmSucceeded ∈ pre) :=
  ⟨rfl, ⟨streamJournalAsRootCommand "/c", false, by decide⟩,
    c1_cursor_reset_before_streaming {} ⟨true⟩ "/c" "/l" rfl
      ⟨streamJournalAsRootCommand "/c", false, by decide⟩⟩

/-- C2: the remote cursor delete is a forced delete: for any initial
cursor state (present or absent), when the environment injects no fault
the reset succeeds and removes the cursor; and when the delete fails for
any other reason while the local journal file is absent,
`StreamFromRemote` returns a descriptive error wrapping the failed command
and its captured stderr, the streaming command is never started, and no
bytes are appended to the local file (which remains absent). -/
theorem c2_force_delete
    (env : Env) (remote : RemoteState) (cfp lfp : String)
    (hStat : env.statFault = none) :
    (env.resetNewSessionErr = none → env.rmFault = none →
      resetCursorFile env remote cfp =
        (.ok (), { cursorExists := false },
          [.resetSessionCreated, .rmIssued (removeCursorFileCommand cfp), .rmSucceeded,
            .resetSessionClosed])) ∧
    (∀ e, env.resetNewSessionErr = none → env.rmFault = some e →
      (StreamFromRemote env remote none cfp lfp).result =
        .error (.resetCursorFailed
          (.runCommandFailed (removeCursorFileCommand cfp) e env.rmStderr)) ∧
      (∀ c b,
        Event.streamStarted c b ∉ (StreamFromRemote env remote none cfp lfp).events) ∧
      (StreamFromRemote env remote none cfp lfp).localJournal = none) :=
  ⟨fun h1 h2 => by simp [resetCursorFile, h1, h2],
    fun e h1 h2 => by
      simp [StreamFromRemote, resetCursorFile, osStat, osIsNotExist, hStat, h1, h2]⟩

/-- Witness for C2: a successful forced delete while the cursor exists, and
a faulted delete (permission denied) that aborts `StreamFromRemote` before
streaming. -/
theorem c2_witness :
    (resetCursorFile {} ⟨true⟩ "/c" =
      (.ok (), { cursorExists := false },
        [.resetSessionCreated, .rmIssued (removeCursorFileCommand "/c"), .rmSucceeded,
          .resetSessionClosed])) ∧
    (StreamFromRemote { rmFault := some (.base "permission denied"), rmStderr := "denied" }
        ⟨true⟩ none "/c" "/l").result =
      .error (.resetCursorFailed
        (.runCommandFailed (removeCursorFileCommand "/c") (.base "permission denied")
          "denied")) :=
  ⟨(c2_force_delete {} ⟨true⟩ "/c" "/l" rfl).1 rfl rfl,
    ((c2_force_delete { rmFault := some (.base "permission denied"), rmStderr := "denied" }
        ⟨true⟩ "/c" "/l" rfl).2 (.base "permission denied") rfl rfl).1⟩

/-- C3, counterexample to the claim as stated: with the remote command
failing (`waitErr` non-nil) while the context is never cancelled, and
stderr captured as `"journalctl: boom"`, `StreamFromRemote` returns an
error that embeds no captured stderr at all — the final error of `stream`
wraps only the wait error, so the captured stderr is not part of it. -/
theorem c3_counterexample :
    (StreamFromRemote
        { waitErr := some (.base "exit status 1"), streamStderr := "journalctl: boom" }
        ⟨true⟩ (some [65]) "/c" "/l").result =
      .error (.streamFailed (.unexpectedWaitError (.base "exit status 1"))) ∧
    GoError.capturedStderrs
        (.streamFailed (.unexpectedWaitError (.base "exit status 1"))) = [] ∧
    ({ waitErr := some (.base "exit status 1"),
        streamStderr := "journalctl: boom" } : Env).streamStderr ≠ "" := by
  decide

/-- C3, amended: for every run that reaches the wait on the remote
command, `StreamFromRemote` returns nil when the context was cancelled
(even if the remote command exited with an error), and returns an error
wrapping the remote command's wait error — without the captured stderr —
when the command fails while the context is not cancelled. -/
theorem c3_cancellation_vs_failure
    (env : Env) (remote : RemoteState) (lj : Option (List Nat)) (cfp lfp : String)
    (hStat : env.statFault = none) (hRS : env.resetNewSessionErr = none)
    (hRm : env.rmFault = none) (hSess : env.streamNewSessionErr = none)
    (hOpen : env.openFileErr = none) (hStart : env.startErr = none) :
    (env.cancelDuringWait = true → env.ctxDoneAtFinalCheck = true →
      (StreamFromRemote env remote lj cfp lfp).result = .ok ()) ∧
    (env.ctxDoneAtFinalCheck = false → ∀ e, env.waitErr = some e →
      (StreamFromRemote env remote lj cfp lfp).result =
        .error (.streamFailed (.unexpectedWaitError e))) := by
  constructor
  · intro hc hd
    cases lj <;>
      simp [StreamFromRemote, stream, resetCursorFile, osStat, osIsNotExist,
        hStat, hRS, hRm, hSess, hOpen, hStart, hd]
  · intro hd e he
    cases lj <;>
      simp [StreamFromRemote, stream, resetCursorFile, osStat, osIsNotExist,
        hStat, hRS, hRm, hSess, hOpen, hStart, hd, he]

/-- Witness for the amended C3: a cancelled run whose remote command
exited with an error still returns nil, and an uncancelled run whose
remote command fails returns the wrapped wait error. -/
theorem c3_witness :
    (StreamFromRemote
        { waitErr := some (.base "remote command exited"), cancelDuringWait := true,
          ctxDoneAtFinalCheck := true }
        ⟨true⟩ (some [65]) "/c" "/l").result = .ok () ∧
    (StreamFromRemote { waitErr := some (.base "exit status 1") }
        ⟨true⟩ (some [65]) "/c" "/l").result =
      .error (.streamFailed (.unexpectedWaitError (.base "exit status 1"))) :=
  ⟨(c3_cancellation_vs_failure
      { waitErr := some (.base "remote command exited"), cancelDuringWait := true,
        ctxDoneAtFinalCheck := true }
      ⟨true⟩ (some [65]) "/c" "/l" rfl rfl rfl rfl rfl rfl).1 rfl rfl,
    (c3_cancellation_vs_failure { waitErr := some (.base "exit status 1") }
      ⟨true⟩ (some [65]) "/c" "/l" rfl rfl rfl rfl rfl rfl).2 rfl
      (.base "exit status 1") rfl⟩

/-- C4: for every run of `stream` that starts the remote command, the
engine does not return before the command has terminated
(`commandTerminated` is always in the trace); when the context is
cancelled during the wait, an interrupt is requested and the actual
termination is observed only afterwards; and when sending the interrupt
fails, the engine forcibly closes the session and still observes the
termination after the forced close rather than returning immediately. -/
theorem c4_cancellation_interrupt_wait
    (env : Env) (remote : RemoteState) (lj : Option (List Nat)) (cfp lfp : String)
    (hSess : env.streamNewSessionErr = none) (hOpen : env.openFileErr = none)
    (hStart : env.startErr = none) :
    Event.commandTerminated ∈ (stream env remote lj cfp lfp).events ∧
    (env.cancelDuringWait = true →
      ∃ pre mid post,
        (stream env remote lj cfp lfp).events =
          pre ++ Event.interruptRequested :: mid ++ Event.commandTerminated :: post ∧
        Event.streamStarted (streamJournalAsRootCommand cfp) remote.cursorExists ∈ pre) ∧
    (env.cancelDuringWait = true → ∀ e, env.signalErr = some e →
      ∃ pre post,
        (stream env remote lj cfp lfp).events =
          pre ++ Event.sessionForceClosed :: post ∧
        Event.commandTerminated ∈ post) := by
  refine ⟨?_, ?_, ?_⟩
  · cases hc : env.cancelDuringWait <;> cases hs : env.signalErr <;>
      simp [stream, hSess, hOpen, hStart, hc, hs]
  · intro hc
    cases hs : env.signalErr with
    | none =>
      refine ⟨[.sessionCreated, .fileOpened,
        .streamStarted (streamJournalAsRootCommand cfp) remote.cursorExists,
        .cancelObserved], [], [.sessionClosed, .fileClosed], ?_, by simp⟩
      simp [stream, hSess, hOpen, hStart, hc, hs]
    | some e =>
      refine ⟨[.sessionCreated, .fileOpened,
        .streamStarted (streamJournalAsRootCommand cfp) remote.cursorExists,
        .cancelObserved], [.interruptFailed, .sessionForceClosed],
        [.sessionClosed, .fileClosed], ?_, by simp⟩
      simp [stream, hSess, hOpen, hStart, hc, hs]
  · intro hc e hs
    refine ⟨[.sessionCreated, .fileOpened,
      .streamStarted (streamJournalAsRootCommand cfp) remote.cursorExists,
      .cancelObserved, .interruptRequested, .interruptFailed],
      [.commandTerminated, .sessionClosed, .fileClosed], ?_, by simp⟩
    simp [stream, hSess, hOpen, hStart, hc, hs]

/-- Environment for the C4 witness: cancellation fires during the wait and
the interrupt request fails. -/
def c4WitnessEnv : Env :=
  { cancelDuringWait := true, ctxDoneAtFinalCheck := true,
    signalErr := some (.base "session closed") }

/-- Witness for C4: a cancelled run whose interrupt request fails; the
trace shows the interrupt request, the forced close, and the command
termination observed before returning. -/
theorem c4_witness :
    Event.commandTerminated ∈ (stream c4WitnessEnv ⟨true⟩ (some [65]) "/c" "/l").events ∧
    (∃ pre mid post,
      (stream c4WitnessEnv ⟨true⟩ (some [65]) "/c" "/l").events =
        pre ++ Event.interruptRequested :: mid ++ Event.commandTerminated :: post ∧
      Event.streamStarted (streamJournalAsRootCommand "/c") true ∈ pre) ∧
    (∃ pre post,
      (stream c4WitnessEnv ⟨true⟩ (some [65]) "/c" "/l").events =
        pre ++ Event.sessionForceClosed :: post ∧
      Event.commandTerminated ∈ post) := by
  have h := c4_cancellation_interrupt_wait c4WitnessEnv ⟨true⟩ (some [65]) "/c" "/l"
    rfl rfl rfl
  exact ⟨h.1, h.2.1 rfl, h.2.2 rfl (.base "session closed") rfl⟩

/-- Environment in which opening the local journal file fails. -/
def c5OpenFailEnv : Env := { openFileErr := some (.base "permission denied") }

/-- Environment in which starting the remote command fails. -/
def c5StartFailEnv : Env := { startErr := some (.base "command not found") }

/-- Environment in which both close calls of the normal path fail. -/
def c5CloseFailEnv : Env :=
  { streamCloseErr := some (.base "close failed"),
    fileCloseErr := some (.base "close failed") }

/-- C5, evaluated at the failing inputs: the source does not close the SSH
session on every exit path of `stream`.  When `os.OpenFile` fails, the
session created just before is never closed (no close event of any kind in
the trace); when `session.Start` fails, the file is closed but the session
again is not.  On the normal path both are closed, and failing close calls
do not change the returned result. -/
theorem c5_session_not_closed_on_early_exit :
    ((stream c5OpenFailEnv ⟨true⟩ none "/c" "/l").result =
      .error (.openLocalFileFailed (.base "permission denied")) ∧
      Event.sessionCreated ∈ (stream c5OpenFailEnv ⟨true⟩ none "/c" "/l").events ∧
      Event.sessionClosed ∉ (stream c5OpenFailEnv ⟨true⟩ none "/c" "/l").events ∧
      Event.sessionForceClosed ∉ (stream c5OpenFailEnv ⟨true⟩ none "/c" "/l").events) ∧
    (Event.sessionCreated ∈ (stream c5StartFailEnv ⟨true⟩ none "/c" "/l").events ∧
      Event.fileClosed ∈ (stream c5StartFailEnv ⟨true⟩ none "/c" "/l").events ∧
      Event.sessionClosed ∉ (stream c5StartFailEnv ⟨true⟩ none "/c" "/l").events ∧
      Event.sessionForceClosed ∉ (stream c5StartFailEnv ⟨true⟩ none "/c" "/l").events) ∧
    ((stream c5CloseFailEnv ⟨true⟩ (some [65]) "/c" "/l").result = .ok () ∧
      Event.sessionClosed ∈ (stream c5CloseFailEnv ⟨true⟩ (some [65]) "/c" "/l").events ∧
      Event.fileClosed ∈ (stream c5CloseFailEnv ⟨true⟩ (some [65]) "/c" "/l").events) := by
  decide

/-- Case analysis of the local journal file after a run of `stream`: it is
unchanged, opened without change (created empty when absent), or extended
by exactly the streamed bytes. -/
theorem stream_localJournal_cases (env : Env) (remote : RemoteState)
    (lj : Option (List Nat)) (cfp lfp : String) :
    (stream env remote lj cfp lfp).localJournal = lj ∨
    (stream env remote lj cfp lfp).localJournal = some (lj.getD []) ∨
    (stream env remote lj cfp lfp).localJournal =
      some (lj.getD [] ++ env.streamedBytes) := by
  cases h1 : env.streamNewSessionErr <;> cases h2 : env.openFileErr <;>
    cases h3 : env.startErr <;> simp [stream, h1, h2, h3]

/-- Case analysis of the local journal file after a run of
`StreamFromRemote`: the reset stage never touches it, so the cases of
`stream_localJournal_cases` carry over. -/
theorem streamFromRemote_localJournal_cases (env : Env) (remote : RemoteState)
    (lj : Option (List Nat)) (cfp lfp : String) :
    (StreamFromRemote env remote lj cfp lfp).localJournal = lj ∨
    (StreamFromRemote env remote lj cfp lfp).localJournal = some (lj.getD []) ∨
    (StreamFromRemote env remote lj cfp lfp).localJournal =
      some (lj.getD [] ++ env.streamedBytes) := by
  unfold StreamFromRemote
  split
  · split
    · simp
    · simpa using stream_localJournal_cases env _ lj cfp lfp
  · simpa using stream_localJournal_cases env remote lj cfp lfp

/-- C6: the local journal file is append-only across every run of the
engine: content present before the run is still a prefix of the content
after the run, and the run never removes the file. -/
theorem c6_append_only (env : Env) (remote : RemoteState)
    (lj : Option (List Nat)) (cfp lfp : String) :
    (∀ c, lj = some c →
      ∃ d, (StreamFromRemote env remote lj cfp lfp).localJournal = some d ∧
        c <+: d) ∧
    ((StreamFromRemote env remote lj cfp lfp).localJournal = none → lj = none) := by
  rcases streamFromRemote_localJournal_cases env remote lj cfp lfp with h | h | h
  · refine ⟨fun c hc => ⟨c, by rw [h, hc], List.prefix_refl c⟩, fun hn => ?_⟩
    rw [h] at hn; exact hn
  · refine ⟨fun c hc => ⟨c, by rw [h, hc]; rfl, List.prefix_refl c⟩, fun hn => ?_⟩
    rw [h] at hn; exact absurd hn (by simp)
  · refine ⟨fun c hc => ⟨c ++ env.streamedBytes, by rw [h, hc]; rfl,
      List.prefix_append c env.streamedBytes⟩, fun hn => ?_⟩
    rw [h] at hn; exact absurd hn (by simp)

/-- Witness for C6: a run that appends one byte to a two-byte file keeps
the old content as a prefix. -/
theorem c6_witness :
    ∃ d, (StreamFromRemote { streamedBytes := [67] } ⟨false⟩ (some [65, 66])
      "/c" "/l").localJournal = some d ∧ [65, 66] <+: d :=
  (c6_append_only { streamedBytes := [67] } ⟨false⟩ (some [65, 66]) "/c" "/l").1
    [65, 66] rfl

/-- C7: when the context is done before the handshake result is received,
`DialContext` returns an error (the cancellation cause) with no client,
and the goroutine closes the client if the handshake built one; when the
dial itself fails, the error is returned with no client; and when the
handshake result is delivered first and the handshake succeeded, the
client is returned successfully and the outcome is unaffected by a
cancellation occurring after the return. -/
theorem c7_dial_context_cancellation (env : DialEnv) :
    (env.winner = .ctxDone → env.dialErr = none →
      (DialContext env).clientReturned = false ∧
      (DialContext env).error = some env.ctxCause ∧
      (env.handshakeErr = none →
        (DialContext env).clientClosedByGoroutine = true)) ∧
    (∀ e, env.dialErr = some e →
      (DialContext env).clientReturned = false ∧
      (DialContext env).error = some e) ∧
    (env.dialErr = none → env.winner = .handshakeDelivered →
      env.handshakeErr = none →
      (DialContext env).clientReturned = true ∧
      (DialContext env).error = none ∧
      (∀ b, DialContext { env with cancelledAfterReturn := b } = DialContext env)) := by
  refine ⟨fun hw hd => ?_, fun e hd => ?_, fun hd hw hh => ?_⟩
  · refine ⟨?_, ?_, fun hh => ?_⟩
    · simp [DialContext, hw, hd]
    · simp [DialContext, hw, hd]
    · simp [DialContext, hw, hd, hh]
  · constructor <;> simp [DialContext, hd]
  · refine ⟨?_, ?_, fun b => ?_⟩ <;> simp [DialContext, hw, hd, hh]

/-- Witness for C7: a dial cancelled before the handshake result is
consumed returns no client and the goroutine closes the built client; an
undisturbed dial returns the client with no error. -/
theorem c7_witness :
    ((DialContext { winner := .ctxDone }).clientReturned = false ∧
      (DialContext { winner := .ctxDone }).clientClosedByGoroutine = true) ∧
    ((DialContext {}).clientReturned = true ∧ (DialContext {}).error = none) :=
  ⟨⟨((c7_dial_context_cancellation { winner := .ctxDone }).1 rfl rfl).1,
      ((c7_dial_context_cancellation { winner := .ctxDone }).1 rfl rfl).2.2 rfl⟩,
    ⟨((c7_dial_context_cancellation {}).2.2 rfl rfl rfl).1,
      ((c7_dial_context_cancellation {}).2.2 rfl rfl rfl).2.1⟩⟩

/-- Case analysis of the event trace of `Reconcile`: either no event at
all, or exactly the create-stream-close sequence of a run that reached
the SSH stage. -/
theorem reconcile_events_cases (cfg : ReconcilerConfig) (env : ReconcileEnv)
    (remote : RemoteState) (lj : Option (List Nat)) (reqNamespace reqName : String) :
    (Reconcile cfg env remote lj reqNamespace reqName).events = [] ∨
    (Reconcile cfg env remote lj reqNamespace reqName).events =
      [.sshClientCreated, .streamFromRemoteCalled, .sshClientClosed] := by
  unfold Reconcile
  cases h1 : env.ctxCause <;> cases h2 : env.getErr <;> cases h3 : env.sshClientErr <;>
    simp [isNotFound] <;> split_ifs <;> try simp
  all_goals split <;> simp

/-- C8: the not-found branch of `Reconcile` is unreachable — its benign
return never occurs in any execution — and whenever the Machine get
returns a non-nil error, a not-found error included, `Reconcile` returns
that error wrapped as a failure without doing anything else. -/
theorem c8_not_found_branch_dead (cfg : ReconcilerConfig) (env : ReconcileEnv)
    (remote : RemoteState) (lj : Option (List Nat)) (reqNamespace reqName : String) :
    REvent.notFoundReturn ∉
      (Reconcile cfg env remote lj reqNamespace reqName).events ∧
    (∀ e, env.ctxCause = none → env.getErr = some e →
      (Reconcile cfg env remote lj reqNamespace reqName).error =
        some (.getMachineFailed (reqNamespace ++ "/" ++ reqName) e) ∧
      (Reconcile cfg env remote lj reqNamespace reqName).events = []) := by
  constructor
  · rcases reconcile_events_cases cfg env remote lj reqNamespace reqName with h | h <;>
      simp [h]
  · intro e h1 h2
    constructor <;> simp [Reconcile, h1, h2]

/-- Machine fixture used by the reconciler witnesses. -/
def sampleMachine : Machine :=
  { name := "m1", nspace := "default", addresses := [] }

/-- Reconciler configuration fixture used by the reconciler witnesses. -/
def sampleConfig : ReconcilerConfig :=
  { localJournalDirectory := "/journals",
    remoteJournaldCursorFilePath := "/root/cursor" }

/-- Witness for C8: a get that fails with a not-found error is returned as
a failure and the benign not-found branch is not taken. -/
theorem c8_witness :
    REvent.notFoundReturn ∉
      (Reconcile sampleConfig
        { machine := sampleMachine, getErr := some (.notFound "machine not found") }
        ⟨true⟩ none "default" "m1").events ∧
    (Reconcile sampleConfig
        { machine := sampleMachine, getErr := some (.notFound "machine not found") }
        ⟨true⟩ none "default" "m1").error =
      some (.getMachineFailed ("default" ++ "/" ++ "m1") (.notFound "machine not found")) :=
  ⟨(c8_not_found_branch_dead sampleConfig
      { machine := sampleMachine, getErr := some (.notFound "machine not found") }
      ⟨true⟩ none "default" "m1").1,
    ((c8_not_found_branch_dead sampleConfig
      { machine := sampleMachine, getErr := some (.notFound "machine not found") }
      ⟨true⟩ none "default" "m1").2 (.notFound "machine not found") rfl rfl).1⟩

/-- The machine-IP loop yields the empty string when no status address has
type `MachineInternalIP`. -/
theorem firstMachineInternalIP_eq_empty (addrs : List MachineAddress)
    (h : ∀ a ∈ addrs, a.addrType ≠ MachineInternalIP) :
    firstMachineInternalIP addrs = "" := by
  induction addrs with
  | nil => rfl
  | cons a rest ih =>
    simp only [firstMachineInternalIP, if_neg (h a (List.mem_cons_self a rest))]
    exact ih fun b hb => h b (List.mem_cons_of_mem a hb)

/-- C9: for a Machine whose status contains no address of type
`MachineInternalIP`, `Reconcile` performs no action at all — no SSH
connection, no event, no change to the local journal file or the remote
cursor — and returns success with the zero result (no explicit
requeue). -/
theorem c9_no_internal_ip_no_action (cfg : ReconcilerConfig) (env : ReconcileEnv)
    (remote : RemoteState) (lj : Option (List Nat)) (reqNamespace reqName : String)
    (hCtx : env.ctxCause = none) (hGet : env.getErr = none)
    (hAddr : ∀ a ∈ env.machine.addresses, a.addrType ≠ MachineInternalIP) :
    Reconcile cfg env remote lj reqNamespace reqName =
      { result := {}, error := none, events := [],
        localJournal := lj, remote := remote } := by
  have hip := firstMachineInternalIP_eq_empty env.machine.addresses hAddr
  simp [Reconcile, hCtx, hGet, isNotFound, hip]

/-- Machine fixture with no internal-IP address. -/
def machineNoInternalIP : Machine :=
  { name := "m2", nspace := "default",
    addresses := [⟨"ExternalIP", "10.0.0.5"⟩, ⟨"Hostname", "h1"⟩] }

/-- Witness for C9: a machine with only external and hostname addresses
leads to a no-op success. -/
theorem c9_witness :
    (∀ a ∈ machineNoInternalIP.addresses, a.addrType ≠ MachineInternalIP) ∧
    Reconcile sampleConfig { machine := machineNoInternalIP }
      ⟨true⟩ (some [65]) "default" "m2" =
      { result := {}, error := none, events := [],
        localJournal := some [65], remote := ⟨true⟩ } :=
  ⟨by decide,
    c9_no_internal_ip_no_action sampleConfig { machine := machineNoInternalIP }
      ⟨true⟩ (some [65]) "default" "m2" rfl rfl (by decide)⟩

/-- A run of `stream` never issues the cursor delete command: the delete
belongs exclusively to the reset stage. -/
theorem stream_no_rm_events (env : Env) (remote : RemoteState)
    (lj : Option (List Nat)) (cfp lfp : String) (c : String) :
    Event.rmIssued c ∉ (stream env remote lj cfp lfp).events := by
  cases h1 : env.streamNewSessionErr <;> cases h2 : env.openFileErr <;>
    cases h3 : env.startErr <;> cases h4 : env.cancelDuringWait <;>
      cases h5 : env.signalErr <;> simp [stream, h1, h2, h3, h4, h5]

/-- C10: when the existence check of the local journal file fails with an
error other than not-exist, `StreamFromRemote` skips the remote cursor
reset entirely — no delete command is ever issued — and proceeds directly
to streaming exactly as on the file-exists path: its outcome is the
wrapped outcome of `stream`, and it is independent of the stat error,
which is never returned. -/
theorem c10_stat_fault_skips_reset
    (env : Env) (remote : RemoteState) (lj : Option (List Nat)) (cfp lfp : String)
    (e : GoError) (hStat : env.statFault = some e) :
    (∀ c, Event.rmIssued c ∉ (StreamFromRemote env remote lj cfp lfp).events) ∧
    (StreamFromRemote env remote lj cfp lfp).result =
      (match (stream env remote lj cfp lfp).result with
        | .error er => .error (.streamFailed er)
        | .ok _ => .ok ()) ∧
    (StreamFromRemote env remote lj cfp lfp).events =
      (stream env remote lj cfp lfp).events ∧
    (∀ e2, StreamFromRemote { env with statFault := some e2 } remote lj cfp lfp =
      StreamFromRemote env remote lj cfp lfp) := by
  have hskip : osIsNotExist (osStat env lj) = false := by
    simp [osStat, osIsNotExist, hStat]
  refine ⟨fun c => ?_, ?_, ?_, fun e2 => ?_⟩
  · simp only [StreamFromRemote, hskip, Bool.false_eq_true, if_false]
    exact stream_no_rm_events env remote lj cfp lfp c
  · simp only [StreamFromRemote, hskip, Bool.false_eq_true, if_false]
  · simp only [StreamFromRemote, hskip, Bool.false_eq_true, if_false]
  · have hskip2 :
        osIsNotExist (osStat { env with statFault := some e2 } lj) = false := by
      simp [osStat, osIsNotExist]
    simp only [StreamFromRemote, hskip, hskip2, Bool.false_eq_true, if_false]
    rfl

/-- Witness for C10: with a permission-denied stat fault over an absent
local file, no delete command is issued and the run proceeds straight to
streaming. -/
theorem c10_witness :
    (∀ c, Event.rmIssued c ∉
      (StreamFromRemote { statFault := some (.base "permission denied") }
        ⟨true⟩ none "/c" "/l").events) ∧
    (StreamFromRemote { statFault := some (.base "permission denied") }
      ⟨true⟩ none "/c" "/l").events =
      (stream { statFault := some (.base "permission denied") }
        ⟨true⟩ none "/c" "/l").events :=
  ⟨(c10_stat_fault_skips_reset { statFault := some (.base "permission denied") }
      ⟨true⟩ none "/c" "/l" (.base "permission denied") rfl).1,
    (c10_stat_fault_skips_reset { statFault := some (.base "permission denied") }
      ⟨true⟩ none "/c" "/l" (.base "permission denied") rfl).2.2.1⟩
